import Mathlib

/-!
Verification of the transaction-composition core of an entity-to-document-store
mapper (TypeDORM): the connection / schema registry (`connection.ts`) and the
document-client transaction transformer
(`document-client-transaction-transformer.ts`), shallowly embedded in Lean.

JavaScript objects become association lists of string fields, a JS `Map`
becomes an association list keyed by strings, thrown exceptions become
`Except`, and the side effect of invoking the destroy callback is returned
explicitly as data.
-/

/-- A JS object whose field values we only need to compare for equality:
an association list from field names to string values. -/
abbrev Obj := List (String × String)

/- ----------------------------------------------------------------
   Schema registry data model (connection.ts and its metadata inputs)
   ---------------------------------------------------------------- -/

/-- Metadata of one attribute of an entity (`AttributeMetadata` /
`AutoGeneratedAttributeMetadata`).  In JS `unique` may be absent, which the
code reads through `(attr as AttributeMetadata)?.unique`; an absent flag
behaves as `false`, so we model both flags as `Bool`. -/
structure AttributeMeta where
  name : String
  unique : Bool
  autoUpdate : Bool
deriving DecidableEq, Repr

/-- Modelled from the spec: the shape of `DynamoEntitySchemaPrimaryKey`
(declared outside the given sources).  Its `metadata._interpolations` maps
each physical key name to the ordered list of attribute names referenced as
placeholders in that key's interpolation pattern; the field may be absent
(`undefined`), which `connection.ts` reads through `?? {}`. -/
structure DynamoEntitySchemaPrimaryKey where
  interpolations : Option (List (String × List String))
deriving DecidableEq, Repr

/-- Metadata of one entity (`EntityMetadata`): the class name used as the
registry key (`entityMeta.target.name`), the primary-key schema
(`schema.primaryKey`) and the ordered attribute list. -/
structure EntityMeta where
  targetName : String
  primaryKey : DynamoEntitySchemaPrimaryKey
  attributes : List AttributeMeta
deriving DecidableEq, Repr

/-- The mutable state of a `Connection`: its registered name, the
`_entityMetadatas` map (an association list keyed by class name) and the
`isConnected` flag. -/
structure Connection where
  name : String
  entityMetadatas : List (String × EntityMeta)
  isConnected : Bool
deriving DecidableEq, Repr

/-- The errors `connection.ts` throws, by call site. -/
inductive ConnError where
  | unknownEntity (name : String)
  | cannotFindAttributes (name : String)
deriving DecidableEq, Repr

/-- `Connection.isUsedForPrimaryKey`: reads `primaryKey.metadata._interpolations
?? {}` and asks whether some key's interpolation list `.includes` the
attribute name. -/
def isUsedForPrimaryKey (primaryKey : DynamoEntitySchemaPrimaryKey)
    (attributeName : String) : Bool :=
  let primaryKeyInterpolations := primaryKey.interpolations.getD []
  primaryKeyInterpolations.any fun currInterpolation =>
    currInterpolation.2.contains attributeName

/-- `Connection.getEntityByTarget`: looks the class name up in
`_entityMetadatas` and throws when it is absent. -/
def getEntityByTarget (c : Connection) (entityClassName : String) :
    Except ConnError EntityMeta :=
  match c.entityMetadatas.lookup entityClassName with
  | none => .error (.unknownEntity entityClassName)
  | some metadata => .ok metadata

/-- JS truthiness of an `EntityMetadata` object: an object reference is always
truthy, so `!!metadata` is `true`. -/
def entityMetaTruthy (_ : EntityMeta) : Bool := true

/-- `Connection.hasMetadata`: `!!this.getEntityByTarget(entityClass)`.  The
lookup throws on an undeclared entity, so the coercion to `Bool` only ever
sees an object. -/
def hasMetadata (c : Connection) (entityClassName : String) :
    Except ConnError Bool :=
  (getEntityByTarget c entityClassName).map entityMetaTruthy

/-- `Connection.getAttributesForEntity`: looks the class name up in
`_entityMetadatas` and returns its attribute list, throwing when absent. -/
def getAttributesForEntity (c : Connection) (entityClassName : String) :
    Except ConnError (List AttributeMeta) :=
  match c.entityMetadatas.lookup entityClassName with
  | none => .error (.cannotFindAttributes entityClassName)
  | some attributesMap => .ok attributesMap.attributes

/-- `Connection.getUniqueAttributesForEntity`: filters the entity's attributes
to those flagged unique whose name is not used in a primary-key
interpolation.  (The JS `if (!entityMetadata)` guard is unreachable because
`getEntityByTarget` already throws; in `Except` the bind propagates the same
error.) -/
def getUniqueAttributesForEntity (c : Connection) (entityClassName : String) :
    Except ConnError (List AttributeMeta) := do
  let entityMetadata ← getEntityByTarget c entityClassName
  let attrs ← getAttributesForEntity c entityClassName
  return attrs.filter fun attr =>
    attr.unique && !(isUsedForPrimaryKey entityMetadata.primaryKey attr.name)

/- ----------------------------------------------------------------
   connect(): one-time initialization discipline (connection.ts)
   ---------------------------------------------------------------- -/

/-- What `connect()` can throw: the duplicate-connection `Error`, or the
re-raised error of `buildMetadatas()` (carried unchanged). -/
inductive ConnectError (ε : Type) where
  | duplicateConnection
  | buildFailed (err : ε)
deriving Repr

/-- The observable outcome of one `connect()` call: the thrown error or
success, the connection state afterwards, and the list of names passed to the
`destroySelf` callback during the call. -/
structure ConnectResult (ε : Type) where
  result : Except (ConnectError ε) Unit
  conn : Connection
  destroyedCalls : List String
deriving Repr

/-- `Connection.connect`: throws if already connected; otherwise builds the
`_entityMetadatas` map from `buildMetadatas()` (whose outcome is passed in as
`buildResult`, since the builder lives outside the given sources) and sets
`isConnected`.  If the build throws, the connection calls
`destroySelf(this.name)` and re-raises the original error; no state was
mutated before the throw. -/
def connect (ε : Type) (buildResult : Except ε (List EntityMeta))
    (c : Connection) : ConnectResult ε :=
  if c.isConnected then
    ⟨.error .duplicateConnection, c, []⟩
  else
    match buildResult with
    | .ok metas =>
        ⟨.ok (), { c with
            entityMetadatas := metas.map fun entityMeta =>
              (entityMeta.targetName, entityMeta),
            isConnected := true }, []⟩
    | .error err => ⟨.error (.buildFailed err), c, [c.name]⟩

/- ----------------------------------------------------------------
   Transaction transformer data model
   (document-client-transaction-transformer.ts)
   ---------------------------------------------------------------- -/

/-- A high-level transaction item.  In JS the read and write item lists hold
objects tagged by which of the fields `create` / `update` / `delete` / `get`
is present (the `isTransactionAdd*Item` type guards); `unknown` stands for
any other runtime shape. -/
inductive TransactionItem where
  | create (item : Obj) (options : Obj)
  | update (item : Obj) (primaryKey : Obj) (body : Obj) (options : Obj)
  | delete (item : Obj) (primaryKey : Obj) (options : Obj)
  | get (item : Obj) (primaryKey : Obj) (options : Obj)
  | unknown (shape : Obj)
deriving DecidableEq, Repr

/-- `isTransactionAddCreateItem`. -/
def isTransactionAddCreateItem : TransactionItem → Bool
  | .create _ _ => true
  | _ => false

/-- `isTransactionAddUpdateItem`. -/
def isTransactionAddUpdateItem : TransactionItem → Bool
  | .update _ _ _ _ => true
  | _ => false

/-- `isTransactionAddDeleteItem`. -/
def isTransactionAddDeleteItem : TransactionItem → Bool
  | .delete _ _ _ => true
  | _ => false

/-- `isTransactionAddGetItem`. -/
def isTransactionAddGetItem : TransactionItem → Bool
  | .get _ _ _ => true
  | _ => false

/-- A low-level DynamoDB transact-write operation
(`DocumentClient.TransactWriteItem`), tagged by which request field is set. -/
inductive TransactWriteItem where
  | Put (input : Obj)
  | Update (input : Obj)
  | Delete (input : Obj)
  | ConditionCheck (input : Obj)
deriving DecidableEq, Repr

/-- A low-level DynamoDB transact-get operation
(`DocumentClient.TransactGetItem`). -/
inductive TransactGetItem where
  | Get (input : Obj)
deriving DecidableEq, Repr

/-- A `LazyTransactionWriteItemListLoader`: a deferred expansion whose
resolution needs an extra read.  Its contents are opaque to the transformer
under verification, which only routes it; we keep the context it carries as
an uninterpreted object. -/
structure LazyTransactionWriteItemListLoader where
  context : Obj
deriving DecidableEq, Repr

/-- Result shape of `toDynamoPutItem`: a plain put input, or already a list of
transact-write items (the lock-record case); the transformer distinguishes
the two with `isWriteTransactionItemList`. -/
inductive PutItemResult where
  | plain (input : Obj)
  | list (items : List TransactWriteItem)
deriving DecidableEq, Repr

/-- Result shape of `toDynamoUpdateItem` and `toDynamoDeleteItem`: a plain
input object, or a lazy loader; the transformer distinguishes the two with
`isLazyTransactionWriteItemListLoader`. -/
inductive WriteItemResult where
  | plain (input : Obj)
  | lazy (loader : LazyTransactionWriteItemListLoader)
deriving DecidableEq, Repr

/-- The item-level transformers inherited from `LowOrderTransformers`
(declared outside the given sources): the transaction transformer under
verification is parametric in them, so we model them as an explicit record of
functions. -/
structure LowOrderTransformers where
  toDynamoPutItem : Obj → Obj → PutItemResult
  toDynamoUpdateItem : Obj → Obj → Obj → Obj → WriteItemResult
  toDynamoDeleteItem : Obj → Obj → Obj → WriteItemResult
  toDynamoGetItem : Obj → Obj → Obj → Obj

/-- `dropProp(obj, prop)` (helpers/drop-prop): returns the object with the
named own property removed and every other property unchanged. -/
def dropProp (obj : Obj) (prop : String) : Obj :=
  obj.filter fun field => field.1 ≠ prop

/-- The thrown `InvalidTransactionWriteItemError`, carrying the offending
item. -/
structure InvalidTransactionWriteItemError where
  transactionItem : TransactionItem
deriving DecidableEq, Repr

/-- The thrown `InvalidTransactionReadItemError`, carrying the offending
item. -/
structure InvalidTransactionReadItemError where
  transactionItem : TransactionItem
deriving DecidableEq, Repr

/-- The accumulator of `innerTransformTransactionWriteItems`: the running
operation list and the pending-resolution queue of lazy loaders. -/
structure WriteTransformAcc where
  transactionItemList : List TransactWriteItem
  lazyTransactionWriteItemListLoader : List LazyTransactionWriteItemListLoader
deriving DecidableEq, Repr

/-- One step of the `reduce` body of `innerTransformTransactionWriteItems`:
classify one item, appending its output to the accumulator or throwing. -/
def writeTransformStep (t : LowOrderTransformers) (acc : WriteTransformAcc)
    (transactionItem : TransactionItem) :
    Except InvalidTransactionWriteItemError WriteTransformAcc :=
  if isTransactionAddCreateItem transactionItem then
    match transactionItem with
    | .create item options =>
        match t.toDynamoPutItem item options with
        | .plain dynamoPutItemInput =>
            .ok { acc with transactionItemList :=
              acc.transactionItemList ++ [.Put dynamoPutItemInput] }
        | .list dynamoPutItemInput =>
            .ok { acc with transactionItemList :=
              acc.transactionItemList ++ dynamoPutItemInput }
    | _ => .error ⟨transactionItem⟩
  else if isTransactionAddUpdateItem transactionItem then
    match transactionItem with
    | .update item primaryKey body options =>
        match t.toDynamoUpdateItem item primaryKey body options with
        | .plain dynamoUpdateItemInput =>
            .ok { acc with transactionItemList :=
              acc.transactionItemList ++
                [.Update (dropProp dynamoUpdateItemInput "ReturnValues")] }
        | .lazy loader =>
            .ok { acc with lazyTransactionWriteItemListLoader :=
              acc.lazyTransactionWriteItemListLoader ++ [loader] }
    | _ => .error ⟨transactionItem⟩
  else if isTransactionAddDeleteItem transactionItem then
    match transactionItem with
    | .delete item primaryKey options =>
        match t.toDynamoDeleteItem item primaryKey options with
        | .plain dynamoDeleteItemInput =>
            .ok { acc with transactionItemList :=
              acc.transactionItemList ++ [.Delete dynamoDeleteItemInput] }
        | .lazy loader =>
            .ok { acc with lazyTransactionWriteItemListLoader :=
              acc.lazyTransactionWriteItemListLoader ++ [loader] }
    | _ => .error ⟨transactionItem⟩
  else
    .error ⟨transactionItem⟩

/-- `innerTransformTransactionWriteItems`: the `reduce` over the item list
with the initial empty accumulator; a thrown error aborts the fold. -/
def innerTransformTransactionWriteItems (t : LowOrderTransformers)
    (transactionItems : List TransactionItem) :
    Except InvalidTransactionWriteItemError WriteTransformAcc :=
  transactionItems.foldlM (writeTransformStep t) ⟨[], []⟩

/-- The accumulator of `innerTransformTransactionReadItems`. -/
structure ReadTransformAcc where
  transactionItemList : List TransactGetItem
deriving DecidableEq, Repr

/-- One step of the `reduce` body of `innerTransformTransactionReadItems`. -/
def readTransformStep (t : LowOrderTransformers) (acc : ReadTransformAcc)
    (transactionItem : TransactionItem) :
    Except InvalidTransactionReadItemError ReadTransformAcc :=
  if isTransactionAddGetItem transactionItem then
    match transactionItem with
    | .get item primaryKey options =>
        .ok { acc with transactionItemList :=
          acc.transactionItemList ++
            [.Get (t.toDynamoGetItem item primaryKey options)] }
    | _ => .error ⟨transactionItem⟩
  else
    .error ⟨transactionItem⟩

/-- `innerTransformTransactionReadItems`: the `reduce` over the item list with
the initial empty accumulator; a thrown error aborts the fold. -/
def innerTransformTransactionReadItems (t : LowOrderTransformers)
    (transactionItems : List TransactionItem) :
    Except InvalidTransactionReadItemError ReadTransformAcc :=
  transactionItems.foldlM (readTransformStep t) ⟨[]⟩

/- ----------------------------------------------------------------
   Derived per-item views of the write transform (for the theorems)
   ---------------------------------------------------------------- -/

/-- Whether an item is one of the three write kinds the write transformer
accepts. -/
def isWriteKindItem (i : TransactionItem) : Bool :=
  isTransactionAddCreateItem i || isTransactionAddUpdateItem i ||
    isTransactionAddDeleteItem i

/-- The operations one item contributes directly to the running operation
list (empty for a deferred result). -/
def itemDirectOps (t : LowOrderTransformers) :
    TransactionItem → List TransactWriteItem
  | .create item options =>
      match t.toDynamoPutItem item options with
      | .plain input => [.Put input]
      | .list items => items
  | .update item primaryKey body options =>
      match t.toDynamoUpdateItem item primaryKey body options with
      | .plain input => [.Update (dropProp input "ReturnValues")]
      | .lazy _ => []
  | .delete item primaryKey options =>
      match t.toDynamoDeleteItem item primaryKey options with
      | .plain input => [.Delete input]
      | .lazy _ => []
  | _ => []

/-- The lazy loader one item contributes to the pending-resolution queue
(none for a directly-resolved result). -/
def itemLazyLoader (t : LowOrderTransformers) :
    TransactionItem → Option LazyTransactionWriteItemListLoader
  | .update item primaryKey body options =>
      match t.toDynamoUpdateItem item primaryKey body options with
      | .plain _ => none
      | .lazy loader => some loader
  | .delete item primaryKey options =>
      match t.toDynamoDeleteItem item primaryKey options with
      | .plain _ => none
      | .lazy loader => some loader
  | _ => none

theorem exceptOk_bind {ε α β : Type} (a : α) (f : α → Except ε β) :
    (Except.ok a >>= f : Except ε β) = f a := rfl

theorem writeTransformStep_ok (t : LowOrderTransformers)
    (acc : WriteTransformAcc) (i : TransactionItem)
    (h : isWriteKindItem i = true) :
    writeTransformStep t acc i =
      .ok ⟨acc.transactionItemList ++ itemDirectOps t i,
        acc.lazyTransactionWriteItemListLoader ++
          (itemLazyLoader t i).toList⟩ := by
  cases i with
  | create item options =>
      simp only [writeTransformStep, isTransactionAddCreateItem,
        itemDirectOps, itemLazyLoader, if_true]
      cases t.toDynamoPutItem item options <;> simp
  | update item primaryKey body options =>
      simp only [writeTransformStep, isTransactionAddCreateItem,
        isTransactionAddUpdateItem, itemDirectOps, itemLazyLoader,
        Bool.false_eq_true, if_false, if_true]
      cases t.toDynamoUpdateItem item primaryKey body options <;> simp
  | delete item primaryKey options =>
      simp only [writeTransformStep, isTransactionAddCreateItem,
        isTransactionAddUpdateItem, isTransactionAddDeleteItem,
        itemDirectOps, itemLazyLoader, Bool.false_eq_true, if_false, if_true]
      cases t.toDynamoDeleteItem item primaryKey options <;> simp
  | get item primaryKey options => simp [isWriteKindItem,
      isTransactionAddCreateItem, isTransactionAddUpdateItem,
      isTransactionAddDeleteItem] at h
  | unknown shape => simp [isWriteKindItem, isTransactionAddCreateItem,
      isTransactionAddUpdateItem, isTransactionAddDeleteItem] at h

theorem writeTransformStep_error (t : LowOrderTransformers)
    (acc : WriteTransformAcc) (i : TransactionItem)
    (h : isWriteKindItem i = false) :
    writeTransformStep t acc i = .error ⟨i⟩ := by
  cases i <;>
    simp_all [isWriteKindItem, writeTransformStep, isTransactionAddCreateItem,
      isTransactionAddUpdateItem, isTransactionAddDeleteItem]

theorem writeFold_ok (t : LowOrderTransformers)
    (items : List TransactionItem) (acc : WriteTransformAcc)
    (h : ∀ i ∈ items, isWriteKindItem i = true) :
    items.foldlM (writeTransformStep t) acc =
      .ok ⟨acc.transactionItemList ++ items.flatMap (itemDirectOps t),
        acc.lazyTransactionWriteItemListLoader ++
          items.filterMap (itemLazyLoader t)⟩ := by
  induction items generalizing acc with
  | nil => simp [List.foldlM]; rfl
  | cons i rest ih =>
      have hi : isWriteKindItem i = true := h i (List.mem_cons_self i rest)
      have hrest : ∀ j ∈ rest, isWriteKindItem j = true := fun j hj =>
        h j (List.mem_cons_of_mem i hj)
      simp only [List.foldlM_cons, writeTransformStep_ok t acc i hi,
        exceptOk_bind, ih _ hrest]
      cases hl : itemLazyLoader t i <;>
        simp [hl, List.flatMap_cons, List.filterMap_cons, List.append_assoc]

theorem writeFold_error (t : LowOrderTransformers)
    (pre : List TransactionItem) (bad : TransactionItem)
    (post : List TransactionItem) (acc : WriteTransformAcc)
    (hpre : ∀ i ∈ pre, isWriteKindItem i = true)
    (hbad : isWriteKindItem bad = false) :
    (pre ++ bad :: post).foldlM (writeTransformStep t) acc =
      .error ⟨bad⟩ := by
  induction pre generalizing acc with
  | nil =>
      simp only [List.nil_append, List.foldlM_cons,
        writeTransformStep_error t acc bad hbad]
      rfl
  | cons i rest ih =>
      have hi : isWriteKindItem i = true := hpre i (List.mem_cons_self i rest)
      have hrest : ∀ j ∈ rest, isWriteKindItem j = true := fun j hj =>
        hpre j (List.mem_cons_of_mem i hj)
      simp only [List.cons_append, List.foldlM_cons,
        writeTransformStep_ok t acc i hi, exceptOk_bind]
      exact ih _ hrest

theorem readTransformStep_ok (t : LowOrderTransformers)
    (acc : ReadTransformAcc) (item primaryKey options : Obj) :
    readTransformStep t acc (.get item primaryKey options) =
      .ok ⟨acc.transactionItemList ++
        [.Get (t.toDynamoGetItem item primaryKey options)]⟩ := by
  simp [readTransformStep, isTransactionAddGetItem]

theorem readTransformStep_error (t : LowOrderTransformers)
    (acc : ReadTransformAcc) (i : TransactionItem)
    (h : isTransactionAddGetItem i = false) :
    readTransformStep t acc i = .error ⟨i⟩ := by
  cases i <;> simp_all [readTransformStep, isTransactionAddGetItem]

/-- The get-item input one read-transaction item contributes. -/
def itemGetOp (t : LowOrderTransformers) : TransactionItem → List TransactGetItem
  | .get item primaryKey options =>
      [.Get (t.toDynamoGetItem item primaryKey options)]
  | _ => []

theorem readFold_ok (t : LowOrderTransformers)
    (items : List TransactionItem) (acc : ReadTransformAcc)
    (h : ∀ i ∈ items, isTransactionAddGetItem i = true) :
    items.foldlM (readTransformStep t) acc =
      .ok ⟨acc.transactionItemList ++ items.flatMap (itemGetOp t)⟩ := by
  induction items generalizing acc with
  | nil => simp [List.foldlM]; rfl
  | cons i rest ih =>
      have hi : isTransactionAddGetItem i = true :=
        h i (List.mem_cons_self i rest)
      have hrest : ∀ j ∈ rest, isTransactionAddGetItem j = true := fun j hj =>
        h j (List.mem_cons_of_mem i hj)
      cases i <;> simp [isTransactionAddGetItem] at hi
      simp only [List.foldlM_cons, readTransformStep_ok, exceptOk_bind,
        ih _ hrest]
      simp [itemGetOp, List.flatMap_cons, List.append_assoc]

theorem readFold_error (t : LowOrderTransformers)
    (pre : List TransactionItem) (bad : TransactionItem)
    (post : List TransactionItem) (acc : ReadTransformAcc)
    (hpre : ∀ i ∈ pre, isTransactionAddGetItem i = true)
    (hbad : isTransactionAddGetItem bad = false) :
    (pre ++ bad :: post).foldlM (readTransformStep t) acc =
      .error ⟨bad⟩ := by
  induction pre generalizing acc with
  | nil =>
      simp only [List.nil_append, List.foldlM_cons,
        readTransformStep_error t acc bad hbad]
      rfl
  | cons i rest ih =>
      have hi : isTransactionAddGetItem i = true :=
        hpre i (List.mem_cons_self i rest)
      have hrest : ∀ j ∈ rest, isTransactionAddGetItem j = true := fun j hj =>
        hpre j (List.mem_cons_of_mem i hj)
      cases i <;> simp [isTransactionAddGetItem] at hi
      simp only [List.cons_append, List.foldlM_cons, readTransformStep_ok,
        exceptOk_bind]
      exact ih _ hrest

theorem dropProp_cons (f : String × String) (rest : Obj) (prop : String) :
    dropProp (f :: rest) prop =
      if f.1 = prop then dropProp rest prop else f :: dropProp rest prop := by
  by_cases h : f.1 = prop <;> simp [dropProp, List.filter_cons, h]

theorem lookup_dropProp_self (obj : Obj) (prop : String) :
    (dropProp obj prop).lookup prop = none := by
  induction obj with
  | nil => rfl
  | cons field rest ih =>
      rcases field with ⟨k, v⟩
      rw [dropProp_cons]
      by_cases hf : k = prop
      · simpa [hf] using ih
      · have hne : prop ≠ k := fun h => hf h.symm
        simp only [hf, if_false]
        rw [List.lookup_cons]
        simp [beq_false_of_ne hne, ih]

theorem lookup_dropProp_ne (obj : Obj) (prop k : String) (hk : k ≠ prop) :
    (dropProp obj prop).lookup k = obj.lookup k := by
  induction obj with
  | nil => rfl
  | cons field rest ih =>
      rcases field with ⟨f, v⟩
      rw [dropProp_cons]
      by_cases hf : f = prop
      · have hkf : k ≠ f := fun h => hk (h.trans hf)
        rw [if_pos hf, ih, List.lookup_cons]
        simp [beq_false_of_ne hkf]
      · rw [if_neg hf, List.lookup_cons, List.lookup_cons]
        cases hbeq : k == f <;> simp [ih]

/- ----------------------------------------------------------------
   Concrete fixtures used by the witnesses
   ---------------------------------------------------------------- -/

/-- Item-level transformers that always resolve directly (an entity with no
non-key unique attributes). -/
def trivialTransformers : LowOrderTransformers where
  toDynamoPutItem := fun _ _ => .plain []
  toDynamoUpdateItem := fun _ _ _ _ => .plain []
  toDynamoDeleteItem := fun _ _ _ => .plain []
  toDynamoGetItem := fun _ _ _ => []

/-- Item-level transformers exercising both the direct and the deferred
paths: updates defer (unique attribute changed), creates and deletes resolve
directly. -/
def mixedTransformers : LowOrderTransformers where
  toDynamoPutItem := fun _ _ => .plain [("k", "p")]
  toDynamoUpdateItem := fun _ _ _ _ => .lazy ⟨[("ctx", "u")]⟩
  toDynamoDeleteItem := fun _ _ _ => .plain [("k", "d")]
  toDynamoGetItem := fun _ _ _ => [("k", "g")]

/-- Item-level transformers whose update result is a plain input carrying a
`ReturnValues` field. -/
def updTransformers : LowOrderTransformers where
  toDynamoPutItem := fun _ _ => .plain []
  toDynamoUpdateItem := fun _ _ _ _ =>
    .plain [("ReturnValues", "ALL_NEW"), ("TableName", "users")]
  toDynamoDeleteItem := fun _ _ _ => .plain []
  toDynamoGetItem := fun _ _ _ => []

/-- A registered entity: `id` is unique and part of the primary key, `email`
is unique and not part of it, `age` is neither. -/
def userMeta : EntityMeta :=
  ⟨"User", ⟨some [("PK", ["id"])]⟩,
    [⟨"id", true, false⟩, ⟨"email", true, false⟩, ⟨"age", false, false⟩]⟩

/-- A connected connection whose registry holds exactly `userMeta`. -/
def demoConnection : Connection := ⟨"default", [("User", userMeta)], true⟩

/- ----------------------------------------------------------------
   Claim theorems
   ---------------------------------------------------------------- -/

/-- C1: transforming a write transaction's item list fails with
`InvalidTransactionWriteItemError` as soon as an item is not a Create, Update
or Delete item, and transforming a read transaction's item list fails with
`InvalidTransactionReadItemError` as soon as an item is not a Get item; the
transform is a pure function of the item list, so the failure is synchronous
and precedes any I/O. -/
theorem c1_invalid_items_fail_fast (t : LowOrderTransformers)
    (preW postW preR postR : List TransactionItem)
    (badW badR : TransactionItem)
    (hpreW : ∀ i ∈ preW, isWriteKindItem i = true)
    (hbadW : isWriteKindItem badW = false)
    (hpreR : ∀ i ∈ preR, isTransactionAddGetItem i = true)
    (hbadR : isTransactionAddGetItem badR = false) :
    innerTransformTransactionWriteItems t (preW ++ badW :: postW) =
      .error ⟨badW⟩ ∧
    innerTransformTransactionReadItems t (preR ++ badR :: postR) =
      .error ⟨badR⟩ :=
  ⟨writeFold_error t preW badW postW ⟨[], []⟩ hpreW hbadW,
    readFold_error t preR badR postR ⟨[]⟩ hpreR hbadR⟩

/-- Witness for C1: a Get item inside a write transaction and a Create item
inside a read transaction each fail with the corresponding error. -/
theorem c1_witness :
    isWriteKindItem (.get [] [] []) = false ∧
    isTransactionAddGetItem (.create [] []) = false ∧
    innerTransformTransactionWriteItems trivialTransformers
        ([] ++ .get [] [] [] :: []) = .error ⟨.get [] [] []⟩ ∧
    innerTransformTransactionReadItems trivialTransformers
        ([] ++ .create [] [] :: []) = .error ⟨.create [] []⟩ := by
  refine ⟨by decide, by decide, ?_⟩
  exact c1_invalid_items_fail_fast trivialTransformers [] [] [] []
    (.get [] [] []) (.create [] []) (by simp) (by decide) (by simp) (by decide)

theorem itemLazyLoader_isSome_direct_nil (t : LowOrderTransformers)
    (i : TransactionItem) (h : (itemLazyLoader t i).isSome = true) :
    itemDirectOps t i = [] := by
  cases i with
  | update item primaryKey body options =>
      simp only [itemLazyLoader, itemDirectOps] at h ⊢
      cases hu : t.toDynamoUpdateItem item primaryKey body options <;> simp_all
  | delete item primaryKey options =>
      simp only [itemLazyLoader, itemDirectOps] at h ⊢
      cases hd : t.toDynamoDeleteItem item primaryKey options <;> simp_all
  | create item options => simp [itemLazyLoader] at h
  | get item primaryKey options => simp [itemLazyLoader] at h
  | unknown shape => simp [itemLazyLoader] at h

/-- C2: on a list of write-kind items the transform classifies every item into
exactly one of the two output collections: the operation list is the in-order
concatenation of the directly-resolved items' operations, the
pending-resolution queue is the in-order list of the deferred items' loaders,
and a deferred item contributes no operation while a directly-resolved item
contributes no loader. -/
theorem c2_write_items_classified (t : LowOrderTransformers)
    (items : List TransactionItem)
    (h : ∀ i ∈ items, isWriteKindItem i = true) :
    innerTransformTransactionWriteItems t items =
      .ok ⟨items.flatMap (itemDirectOps t),
        items.filterMap (itemLazyLoader t)⟩ ∧
    ∀ i ∈ items,
      ((itemLazyLoader t i).isSome = true ∧ itemDirectOps t i = []) ∨
        itemLazyLoader t i = none := by
  constructor
  · have hfold := writeFold_ok t items ⟨[], []⟩ h
    simpa [innerTransformTransactionWriteItems] using hfold
  · intro i _
    cases hl : (itemLazyLoader t i) with
    | none => exact Or.inr rfl
    | some loader =>
        exact Or.inl ⟨by simp [hl],
          itemLazyLoader_isSome_direct_nil t i (by simp [hl])⟩

/-- Witness for C2: one create (direct), one update (deferred) and one delete
(direct): the operation list holds the create and delete outputs in item
order, the queue holds the update's loader. -/
theorem c2_witness :
    (∀ i ∈ [TransactionItem.create [("a", "1")] [],
        TransactionItem.update [] [("pk", "u1")] [] [],
        TransactionItem.delete [] [("pk", "d1")] []],
      isWriteKindItem i = true) ∧
    innerTransformTransactionWriteItems mixedTransformers
        [TransactionItem.create [("a", "1")] [],
          TransactionItem.update [] [("pk", "u1")] [] [],
          TransactionItem.delete [] [("pk", "d1")] []] =
      .ok ⟨[.Put [("k", "p")], .Delete [("k", "d")]], [⟨[("ctx", "u")]⟩]⟩ := by
  refine ⟨by decide, ?_⟩
  have h := (c2_write_items_classified mixedTransformers
    [TransactionItem.create [("a", "1")] [],
      TransactionItem.update [] [("pk", "u1")] [] [],
      TransactionItem.delete [] [("pk", "d1")] []] (by decide)).1
  rw [h]
  rfl

/-- C3: for a registered entity, `getUniqueAttributesForEntity` returns
exactly the attributes whose unique flag is set and whose name is not used in
any primary-key interpolation pattern; in particular no attribute used for
the primary key appears in the result. -/
theorem c3_unique_attributes_exclude_key (c : Connection)
    (entityClassName : String) (m : EntityMeta)
    (h : c.entityMetadatas.lookup entityClassName = some m) :
    ∃ attrs, getUniqueAttributesForEntity c entityClassName = .ok attrs ∧
      (∀ a, a ∈ attrs ↔
        a ∈ m.attributes ∧ a.unique = true ∧
          isUsedForPrimaryKey m.primaryKey a.name = false) ∧
      ∀ a ∈ attrs, isUsedForPrimaryKey m.primaryKey a.name = false := by
  have h1 : getEntityByTarget c entityClassName = .ok m := by
    simp [getEntityByTarget, h]
  have h2 : getAttributesForEntity c entityClassName = .ok m.attributes := by
    simp [getAttributesForEntity, h]
  refine ⟨m.attributes.filter fun attr =>
    attr.unique && !(isUsedForPrimaryKey m.primaryKey attr.name), ?_, ?_, ?_⟩
  · simp [getUniqueAttributesForEntity, h1, h2, exceptOk_bind]
  · intro a
    simp [List.mem_filter, Bool.and_eq_true, Bool.not_eq_true', and_assoc]
  · intro a ha
    have := (List.mem_filter.mp ha).2
    simp [Bool.and_eq_true, Bool.not_eq_true'] at this
    exact this.2

/-- Witness for C3: for the demo entity, `email` (unique, non-key) is
returned while `id` (unique but interpolated into the primary key) and `age`
(not unique) are excluded. -/
theorem c3_witness :
    demoConnection.entityMetadatas.lookup "User" = some userMeta ∧
    ∃ attrs, getUniqueAttributesForEntity demoConnection "User" = .ok attrs ∧
      (∀ a, a ∈ attrs ↔
        a ∈ userMeta.attributes ∧ a.unique = true ∧
          isUsedForPrimaryKey userMeta.primaryKey a.name = false) ∧
      ∀ a ∈ attrs, isUsedForPrimaryKey userMeta.primaryKey a.name = false := by
  refine ⟨by decide, ?_⟩
  exact c3_unique_attributes_exclude_key demoConnection "User" userMeta
    (by decide)

/-- C4: a second `connect()` on a connection whose first `connect()` succeeded
fails with the duplicate-connection error, performs no rebuild (the outcome
is independent of the second build result) and leaves the metadata map of the
first call unchanged. -/
theorem c4_connect_twice_fails (ε : Type) (c : Connection)
    (metas : List EntityMeta) (b2 : Except ε (List EntityMeta))
    (h : c.isConnected = false) :
    (connect ε (.ok metas) c).result = .ok () ∧
    connect ε b2 (connect ε (.ok metas) c).conn =
      ⟨.error .duplicateConnection, (connect ε (.ok metas) c).conn, []⟩ := by
  simp [connect, h]

/-- Witness for C4: connecting a fresh connection succeeds, and a second
`connect()` fails with the duplicate error while keeping the state. -/
theorem c4_witness :
    (({ name := "default", entityMetadatas := [],
        isConnected := false } : Connection).isConnected = false) ∧
    ((connect String (.ok [userMeta])
        { name := "default", entityMetadatas := [],
          isConnected := false }).result = .ok () ∧
      connect String (.ok [])
          (connect String (.ok [userMeta])
            { name := "default", entityMetadatas := [],
              isConnected := false }).conn =
        ⟨.error .duplicateConnection,
          (connect String (.ok [userMeta])
            { name := "default", entityMetadatas := [],
              isConnected := false }).conn, []⟩) :=
  ⟨rfl, c4_connect_twice_fails String
    { name := "default", entityMetadatas := [], isConnected := false }
    [userMeta] (.ok []) rfl⟩

/-- C5: if building the metadata inside `connect()` throws, the connection
invokes the destroy callback with its name, re-raises the original error
unchanged, and stays in the not-connected state with its state otherwise
untouched. -/
theorem c5_connect_build_failure (ε : Type) (c : Connection) (e : ε)
    (h : c.isConnected = false) :
    connect ε (.error e) c = ⟨.error (.buildFailed e), c, [c.name]⟩ ∧
    (connect ε (.error e) c).conn.isConnected = false := by
  constructor
  · simp [connect, h]
  · simp [connect, h]

/-- Witness for C5: a failing build on a fresh connection destroys the
registration, re-raises the build error and leaves it disconnected. -/
theorem c5_witness :
    (({ name := "default", entityMetadatas := [],
        isConnected := false } : Connection).isConnected = false) ∧
    (connect String (.error "bad key template")
        { name := "default", entityMetadatas := [], isConnected := false } =
      ⟨.error (.buildFailed "bad key template"),
        { name := "default", entityMetadatas := [], isConnected := false },
        ["default"]⟩ ∧
      (connect String (.error "bad key template")
        { name := "default", entityMetadatas := [],
          isConnected := false }).conn.isConnected = false) :=
  ⟨rfl, c5_connect_build_failure String
    { name := "default", entityMetadatas := [], isConnected := false }
    "bad key template" rfl⟩

/-- C6: `isUsedForPrimaryKey` returns true exactly when some interpolation
pattern of the schema references the attribute name among its placeholders,
and returns false for every attribute when the schema has no
interpolations. -/
theorem c6_isUsedForPrimaryKey_iff (pk : DynamoEntitySchemaPrimaryKey)
    (attributeName : String) :
    (isUsedForPrimaryKey pk attributeName = true ↔
      ∃ p ∈ pk.interpolations.getD [], attributeName ∈ p.2) ∧
    (pk.interpolations = none →
      isUsedForPrimaryKey pk attributeName = false) := by
  constructor
  · simp [isUsedForPrimaryKey, List.any_eq_true]
  · intro h
    simp [isUsedForPrimaryKey, h]

/-- Witness for C6: for a schema whose only pattern interpolates `id`, the
predicate holds for `id`; for a schema with no interpolations it is false. -/
theorem c6_witness :
    (isUsedForPrimaryKey ⟨some [("PK", ["id"])]⟩ "id" = true) ∧
    ((⟨none⟩ : DynamoEntitySchemaPrimaryKey).interpolations = none) ∧
    (isUsedForPrimaryKey ⟨none⟩ "id" = false) :=
  ⟨(c6_isUsedForPrimaryKey_iff ⟨some [("PK", ["id"])]⟩ "id").1.mpr
      ⟨("PK", ["id"]), by decide, by decide⟩,
    rfl, (c6_isUsedForPrimaryKey_iff ⟨none⟩ "id").2 rfl⟩

/-- C7: `getEntityByTarget` returns the registered metadata exactly for
declared entity types and raises the unknown-entity error for undeclared
ones; it never returns a metadata object other than the registered one. -/
theorem c7_getEntityByTarget_spec (c : Connection) (entityClassName : String) :
    (∀ m, getEntityByTarget c entityClassName = .ok m ↔
      c.entityMetadatas.lookup entityClassName = some m) ∧
    (c.entityMetadatas.lookup entityClassName = none →
      getEntityByTarget c entityClassName =
        .error (.unknownEntity entityClassName)) := by
  cases hl : c.entityMetadatas.lookup entityClassName <;>
    simp [getEntityByTarget, hl]

/-- Witness for C7: the demo registry returns `userMeta` for `User` and the
unknown-entity error for an undeclared `Ghost`. -/
theorem c7_witness :
    getEntityByTarget demoConnection "User" = .ok userMeta ∧
    demoConnection.entityMetadatas.lookup "Ghost" = none ∧
    getEntityByTarget demoConnection "Ghost" =
      .error (.unknownEntity "Ghost") :=
  ⟨(c7_getEntityByTarget_spec demoConnection "User").1 userMeta |>.mpr
      (by decide),
    by decide,
    (c7_getEntityByTarget_spec demoConnection "Ghost").2 (by decide)⟩

/-- C9: `hasMetadata` never returns false: a declared entity yields
`.ok true`, an undeclared one raises the unknown-entity error through the
delegated lookup. -/
theorem c9_hasMetadata_never_false (c : Connection)
    (entityClassName : String) :
    (∀ m, c.entityMetadatas.lookup entityClassName = some m →
      hasMetadata c entityClassName = .ok true) ∧
    (c.entityMetadatas.lookup entityClassName = none →
      hasMetadata c entityClassName =
        .error (.unknownEntity entityClassName)) ∧
    hasMetadata c entityClassName ≠ .ok false := by
  cases hl : c.entityMetadatas.lookup entityClassName <;>
    simp [hasMetadata, getEntityByTarget, entityMetaTruthy, hl, Except.map]

/-- Witness for C9: on the demo registry `hasMetadata` yields `.ok true` for
`User` and the unknown-entity error for `Ghost`. -/
theorem c9_witness :
    demoConnection.entityMetadatas.lookup "User" = some userMeta ∧
    hasMetadata demoConnection "User" = .ok true ∧
    hasMetadata demoConnection "Ghost" =
      .error (.unknownEntity "Ghost") ∧
    hasMetadata demoConnection "User" ≠ .ok false :=
  ⟨by decide,
    (c9_hasMetadata_never_false demoConnection "User").1 userMeta (by decide),
    (c9_hasMetadata_never_false demoConnection "Ghost").2.1 (by decide),
    (c9_hasMetadata_never_false demoConnection "User").2.2⟩

/-- C10: an update item whose transformation resolves synchronously has its
Update operation appended as the transformer's output with the `ReturnValues`
property removed and every other field unchanged. -/
theorem c10_update_drops_return_values (t : LowOrderTransformers)
    (item primaryKey body options input : Obj)
    (h : t.toDynamoUpdateItem item primaryKey body options = .plain input) :
    innerTransformTransactionWriteItems t
        [.update item primaryKey body options] =
      .ok ⟨[.Update (dropProp input "ReturnValues")], []⟩ ∧
    (dropProp input "ReturnValues").lookup "ReturnValues" = none ∧
    ∀ k, k ≠ "ReturnValues" →
      (dropProp input "ReturnValues").lookup k = input.lookup k := by
  refine ⟨?_, lookup_dropProp_self input "ReturnValues",
    fun k hk => lookup_dropProp_ne input "ReturnValues" k hk⟩
  simp [innerTransformTransactionWriteItems, List.foldlM, writeTransformStep,
    isTransactionAddCreateItem, isTransactionAddUpdateItem, h]

/-- Witness for C10: an update resolving to a plain input with a
`ReturnValues` field yields an Update operation without that field and with
`TableName` preserved. -/
theorem c10_witness :
    updTransformers.toDynamoUpdateItem [] [("pk", "u1")] [] [] =
      .plain [("ReturnValues", "ALL_NEW"), ("TableName", "users")] ∧
    innerTransformTransactionWriteItems updTransformers
        [.update [] [("pk", "u1")] [] []] =
      .ok ⟨[.Update (dropProp
        [("ReturnValues", "ALL_NEW"), ("TableName", "users")]
        "ReturnValues")], []⟩ ∧
    (dropProp [("ReturnValues", "ALL_NEW"), ("TableName", "users")]
      "ReturnValues").lookup "ReturnValues" = none ∧
    (dropProp [("ReturnValues", "ALL_NEW"), ("TableName", "users")]
      "ReturnValues").lookup "TableName" = some "users" := by
  have h := c10_update_drops_return_values updTransformers
    [] [("pk", "u1")] [] []
    [("ReturnValues", "ALL_NEW"), ("TableName", "users")] (by decide)
  exact ⟨by decide, h.1, h.2.1,
    (h.2.2 "TableName" (by decide)).trans (by decide)⟩

theorem trivial_replicate_flatMap (n : Nat) :
    (List.replicate n (TransactionItem.create [] [])).flatMap
      (itemDirectOps trivialTransformers) =
      List.replicate n (TransactWriteItem.Put []) := by
  induction n with
  | zero => rfl
  | succ k ih =>
      simp only [List.replicate_succ, List.flatMap_cons, ih]
      rfl

theorem trivial_replicate_filterMap (n : Nat) :
    (List.replicate n (TransactionItem.create [] [])).filterMap
      (itemLazyLoader trivialTransformers) = [] := by
  induction n with
  | zero => rfl
  | succ k ih =>
      simp only [List.replicate_succ, List.filterMap_cons, ih]
      rfl

theorem replicate_create_writeKind (n : Nat) :
    ∀ i ∈ List.replicate n (TransactionItem.create [] []),
      isWriteKindItem i = true := by
  intro i hi
  rw [List.eq_of_mem_replicate hi]
  rfl

/-- C8 counterexample: the transformer performs no size-limit check.  A write
transaction of 101 create items (beyond any DynamoDB transact-write bound,
25 at the time and 100 today) transforms successfully into 101 operations
instead of failing with a size-limit error before submission. -/
theorem c8_counterexample :
    innerTransformTransactionWriteItems trivialTransformers
        (List.replicate 101 (.create [] [])) =
      .ok ⟨List.replicate 101 (.Put []), []⟩ ∧
    (List.replicate 101 (TransactWriteItem.Put [])).length = 101 := by
  constructor
  · rw [innerTransformTransactionWriteItems,
      writeFold_ok trivialTransformers _ ⟨[], []⟩
        (replicate_create_writeKind 101),
      trivial_replicate_flatMap, trivial_replicate_filterMap]
    rfl
  · rfl

/-- C8 amended: the transformation of a write transaction performs no
size-limit check at all: a transaction of any number of items, in particular
one whose operation list exceeds the store maximum of 25, transforms
successfully with one operation per create item and no error. -/
theorem c8_no_size_limit_check (n : Nat) (h : 25 < n) :
    innerTransformTransactionWriteItems trivialTransformers
        (List.replicate n (.create [] [])) =
      .ok ⟨List.replicate n (.Put []), []⟩ ∧
    25 < (List.replicate n (TransactWriteItem.Put [])).length := by
  constructor
  · rw [innerTransformTransactionWriteItems,
      writeFold_ok trivialTransformers _ ⟨[], []⟩
        (replicate_create_writeKind n),
      trivial_replicate_flatMap, trivial_replicate_filterMap]
    rfl
  · simpa using h

/-- Witness for the amended C8: at 101 items the transformation succeeds and
the resulting operation list exceeds the 25-item bound. -/
theorem c8_witness :
    25 < 101 ∧
    (innerTransformTransactionWriteItems trivialTransformers
        (List.replicate 101 (.create [] [])) =
      .ok ⟨List.replicate 101 (.Put []), []⟩ ∧
    25 < (List.replicate 101 (TransactWriteItem.Put [])).length) :=
  ⟨by decide, c8_no_size_limit_check 101 (by decide)⟩
